import Mathlib

/-!
Shallow embedding of the tumcsbot event dispatcher (src/tumcsbot/tumcsbot.py)
and the course plugin (src/tumcsbot/plugins/course.py), together with proofs
about the properties stated in the specification.

Python dictionaries are modelled as structures whose fields are `Option`s;
accessing a missing key yields an `Except.error` (a `KeyError`).  Machinery
that lives in modules not present in the source tree (the Zulip client
wrapper, the plugin base module, the sibling stream-group/user-group
plugins) is modelled from the specification; every such definition carries a
doc comment saying so.
-/

/-- Python whitespace predicate used by `str.split()` with the default
separator (the ASCII whitespace characters). -/
def isPySpace (c : Char) : Bool :=
  c = ' ' || c = '\t' || c = '\n' || c = '\r' || c = '\x0b' || c = '\x0c'

/-- Python slice `s[n:]` on code points. -/
def pyDropChars (n : Nat) (s : String) : String :=
  String.mk (s.data.drop n)

/-- Python `s.startswith(p)` on code points. -/
def pyStartsWith (s p : String) : Bool :=
  p.data.isPrefixOf s.data

/-- Python `s.split(maxsplit=1)` with the default (whitespace) separator:
leading whitespace is skipped; if nothing remains the result is `[]`;
otherwise the first whitespace-delimited token is taken, the following
whitespace run is consumed, and the rest of the string (if nonempty) is the
second element. -/
def pySplitMax1 (s : String) : List String :=
  let cs := s.data.dropWhile isPySpace
  if cs.isEmpty then []
  else
    let tok := cs.takeWhile (fun c => !isPySpace c)
    let rest := (cs.dropWhile (fun c => !isPySpace c)).dropWhile isPySpace
    if rest.isEmpty then [String.mk tok] else [String.mk tok, String.mk rest]

/-- `cmd[0] if len(cmd) > 0 else ""` in `zulip_event_preprocess`. -/
def pyCmdName (s : String) : String :=
  (pySplitMax1 s).headD ""

/-- `cmd[1] if len(cmd) > 1 else ""` in `zulip_event_preprocess`. -/
def pyCmdArgs (s : String) : String :=
  ((pySplitMax1 s).drop 1).headD ""

/-- The fields of the nested `event["message"]` dictionary that
`zulip_event_preprocess` reads or writes.  A `none` field models a missing
key. -/
structure MessageDict where
  sender_id : Option Int := none
  type : Option String := none
  content : Option String := none
  display_recipient : Option (List Int) := none
  command_name : Option String := none
  command : Option String := none
deriving DecidableEq, Repr

/-- The fields of the Zulip event dictionary that the dispatcher reads. -/
structure EventDict where
  type : Option String := none
  message : Option MessageDict := none
deriving DecidableEq, Repr

/-- The bot's client handle: its own user id and its mention string
(`client.ping`); constructed in `_RootClient.from_sync_client` as the id and
the string `@**full_name**` of the bot's profile. -/
structure Client where
  id : Int
  ping : String
deriving DecidableEq, Repr

/-- Modelled from the spec: `client.ping_len` (module `tumcsbot.client`,
not under `src/`) is the length of the mention string, used to strip the
mention prefix off a command line. -/
def Client.ping_len (c : Client) : Nat :=
  c.ping.length

/-- Modelled from the spec: `client.is_only_pm_recipient` (module
`tumcsbot.client`, not under `src/`) decides whether the bot is the only
recipient of a private message besides the sender, from the message's
`display_recipient` list of user ids; a missing key is a `KeyError`. -/
def is_only_pm_recipient (client : Client) (m : MessageDict) : Except String Bool :=
  match m.display_recipient, m.sender_id with
  | some recips, some sid => .ok (recips.all (fun r => r = client.id || r = sid))
  | _, _ => .error ("KeyError")

/-- `TumCSBot.zulip_event_preprocess` (tumcsbot.py lines 255-308).  The
result is `.error` exactly when the Python code raises (a `KeyError` from a
missing dictionary key), and `.ok` with the (possibly augmented) event
otherwise.  The branch structure mirrors the short-circuit evaluation order
of the Python conditions. -/
def zulip_event_preprocess (client : Client) (event : EventDict) : Except String EventDict :=
  match event.type with
  | none => .error ("KeyError")
  | some t =>
    let swpE : Except String Bool :=
      if t = "message" then
        match event.message with
        | none => .error ("KeyError")
        | some m =>
          match m.content with
          | none => .error ("KeyError")
          | some c => .ok (pyStartsWith c client.ping)
      else .ok false
    match swpE with
    | .error e => .error e
    | .ok startswithping =>
      if t ≠ "message" then .ok event
      else
        match event.message with
        | none => .error ("KeyError")
        | some m =>
          match m.sender_id with
          | none => .error ("KeyError")
          | some sid =>
            if sid = client.id then .ok event
            else
              match m.type with
              | none => .error ("KeyError")
              | some mt =>
                if mt ≠ "private" ∧ startswithping = false then .ok event
                else
                  let exclE : Except String Bool :=
                    if mt = "private" then
                      if startswithping = true then .ok true
                      else
                        match is_only_pm_recipient client m with
                        | .error e => .error e
                        | .ok b => .ok (!b)
                    else .ok false
                  match exclE with
                  | .error e => .error e
                  | .ok excl =>
                    if excl = true then .ok event
                    else
                      match m.content with
                      | none => .error ("KeyError")
                      | some c0 =>
                        let content :=
                          if startswithping = true then pyDropChars client.ping_len c0 else c0
                        .ok { event with message := some { m with
                          command_name := some (pyCmdName content),
                          command := some (pyCmdArgs content) } }

/-- An event is well-formed when it carries the `type` field and, for
message events, the nested message fields the preprocessing step reads. -/
def wellFormedEvent (e : EventDict) : Bool :=
  match e.type with
  | none => false
  | some t =>
    if t = "message" then
      match e.message with
      | none => false
      | some m =>
        m.sender_id.isSome && m.type.isSome && m.content.isSome && m.display_recipient.isSome
    else true

/-- The event with `command_name` and `command` attached onto its message,
as done by `event["message"].update(...)`. -/
def augmentCommand (e : EventDict) (m : MessageDict) (name args : String) : EventDict :=
  { e with message := some { m with command_name := some name, command := some args } }

/-- Modelled from the spec: the EventType enumeration of the plugin base
module (tumcsbot.plugin, not under src/); the dispatcher distinguishes the
shutdown sentinel (_EMPTY), Zulip events (ZULIP), and other event kinds. -/
inductive PyEventType where
  | empty
  | zulip
  | other
deriving DecidableEq, Repr

/-- Modelled from the spec: the Event objects of the plugin base module
(tumcsbot.plugin, not under src/): a sender tag, a type tag, and for Zulip
events the raw event dictionary as data. -/
structure BotEvent where
  sender : String
  etype : PyEventType
  data : EventDict
deriving DecidableEq, Repr

/-- Modelled from the spec: a live plugin as the dispatcher sees it — its
name and its responsibility predicate (Plugin.is_responsible, module
tumcsbot.plugin, not under src/), kept abstract. -/
structure LivePlugin where
  name : String
  responsible : BotEvent → Bool

/-- The observable outcome of one iteration of the dispatcher main loop in
TumCSBot.run (tumcsbot.py lines 196-222). -/
inductive StepResult where
  | stop (restart : Bool)
  | crash
  | skip
  | dispatch (data : EventDict) (handlers : List String)
deriving DecidableEq, Repr

/-- One iteration of the while-loop body of TumCSBot.run, given the current
stopped flag, the live plugins, and the event just pulled off the queue.
`.stop` models breaking out of the loop, `.skip` a `continue`, `.crash` an
uncaught exception (the KeyError of `event.data["type"]`, which is outside
the try block), and `.dispatch` the fan-out that schedules `handle_event`
tasks for every responsible plugin. -/
def loopStep (client : Client) (stopped : Bool) (plugins : List LivePlugin)
    (ev : BotEvent) : StepResult :=
  if stopped = true ∨ ev.etype = PyEventType.empty then
    .stop (if ev.etype = PyEventType.empty ∧ ev.sender = "restart" then true else false)
  else
    match ev.etype with
    | PyEventType.zulip =>
      match ev.data.type with
      | none => .crash
      | some t =>
        if t = "heartbeat" then .skip
        else
          match zulip_event_preprocess client ev.data with
          | .error _ => .skip
          | .ok d =>
            .dispatch d
              ((plugins.filter (fun p => p.responsible { ev with data := d })).map
                (fun p => p.name))
    | _ => .skip

/-- A plugin class as `startPlugins` sees it: its `plugin_name()` and its
declared `dependencies`. -/
structure PluginClass where
  name : String
  dependencies : List String
deriving DecidableEq, Repr

/-- Insertion into a Python dict built by a comprehension: an existing key
keeps its position and its value is overwritten (last one wins); a new key
is appended. -/
def pyDictInsert {β : Type} (d : List (String × β)) (k : String) (v : β) :
    List (String × β) :=
  if d.any (fun p => p.1 = k) then
    d.map (fun p => if p.1 = k then (k, v) else p)
  else d ++ [(k, v)]

/-- The `plugin_class_dict` comprehension of `startPlugins`. -/
def pluginClassDict (classes : List PluginClass) : List (String × PluginClass) :=
  classes.foldl (fun d pc => pyDictInsert d pc.name pc) []

/-- The `plugin_graph` comprehension of `startPlugins`. -/
def pluginGraph (classes : List PluginClass) : List (String × List String) :=
  classes.foldl (fun d pc => pyDictInsert d pc.name pc.dependencies) []

def addGraphNode (ns : List String) (n : String) : List String :=
  if ns.contains n then ns else ns ++ [n]

/-- The node set of a `graphlib.TopologicalSorter`, in creation order: for
each `(node, predecessors)` entry, the node and then its predecessors. -/
def graphNodes (g : List (String × List String)) : List String :=
  g.foldl (fun ns p => p.2.foldl addGraphNode (addGraphNode ns p.1)) []

/-- The predecessor set of a node of the graph (empty for a node that only
occurs as someone's predecessor). -/
def depsOf (g : List (String × List String)) (n : String) : List String :=
  match g.find? (fun p => p.1 = n) with
  | some p => p.2
  | none => []

/-- Kahn's algorithm rounds, as performed by
`TopologicalSorter.static_order`: in each round every node all of whose
predecessors are done becomes ready; if no node is ready while some are
pending, the graph has a cycle (`prepare` raises CycleError before anything
is yielded) and the result is `none`. -/
def topoGo (g : List (String × List String)) :
    Nat → List String → List String → Option (List String)
  | 0, _, pending => if pending.isEmpty then some [] else none
  | fuel + 1, done, pending =>
    if pending.isEmpty then some []
    else
      let ready := pending.filter (fun n => (depsOf g n).all (fun d => done.contains d))
      if ready.isEmpty then none
      else
        match topoGo g fuel (done ++ ready) (pending.filter (fun n => !ready.contains n)) with
        | none => none
        | some l => some (ready ++ l)

/-- `TopologicalSorter(plugin_graph).static_order()`: `none` models the
CycleError raised by `prepare()` before the first node is yielded. -/
def staticOrder (g : List (String × List String)) : Option (List String) :=
  topoGo g (graphNodes g).length [] (graphNodes g)

/-- The body of the for-loop of `startPlugins` over the topological order:
look the name up in `plugin_class_dict` (a missing name is a KeyError),
instantiate the plugin, raise if the name is already in `self.plugins`, and
store it.  The second component of the result is the list of instantiated
plugins, in instantiation order. -/
def instantiateLoop (classDict : List (String × PluginClass)) :
    List String → List String → List String → (Except String Unit) × List String
  | [], _, started => (.ok (), started)
  | n :: rest, plugins, started =>
    match classDict.find? (fun p => p.1 = n) with
    | none => (.error ("KeyError"), started)
    | some _ =>
      if plugins.contains n then (.error ("plugin appears twice"), started ++ [n])
      else instantiateLoop classDict rest (plugins ++ [n]) (started ++ [n])

/-- `TumCSBot.startPlugins` (tumcsbot.py lines 230-253), returning whether
it raised and the list of plugins instantiated, in order. -/
def startPlugins (classes : List PluginClass) : (Except String Unit) × List String :=
  match staticOrder (pluginGraph classes) with
  | none => (.error ("CycleError"), [])
  | some order => instantiateLoop (pluginClassDict classes) order [] []

/-- A row of the Courses table (class CourseDB, course.py lines 40-71).
Zulip streams are represented by their stream name. -/
structure CourseRow where
  courseId : Nat
  courseName : String
  streams : String
  tutors : Nat
  tutorStream : String
  instructorStream : Option String
deriving DecidableEq, Repr

/-- Modelled from the spec: a row of the StreamGroups table (class
StreamGroup of tumcsbot.plugins.streamgroup, not under src/): a natural
string key and the group's chosen emoji, which must be unique. -/
structure StreamGroupRow where
  streamGroupId : String
  streamGroupEmote : String
deriving DecidableEq, Repr

/-- Modelled from the spec: a row of the UserGroups table (class UserGroup
of tumcsbot.plugins.usergroup, not under src/): a generated id and a
name. -/
structure UserGroupRow where
  groupId : Nat
  groupName : String
deriving DecidableEq, Repr

/-- The committed database state the course plugin operates on. -/
structure CourseTables where
  courses : List CourseRow
  streamgroups : List StreamGroupRow
  usergroups : List UserGroupRow
deriving DecidableEq, Repr

/-- The next autoincrement id for the Courses table. -/
def nextCourseId (db : CourseTables) : Nat :=
  (db.courses.map (fun c => c.courseId)).foldl max 0 + 1

/-- The next autoincrement id for the UserGroups table. -/
def nextUserGroupId (db : CourseTables) : Nat :=
  (db.usergroups.map (fun u => u.groupId)).foldl max 0 + 1

/-- `Course.create_empty` (course.py lines 116-202) on the database state:
the two uniqueness pre-checks raise a DMError before anything is written;
inside the try block a stream group `streams_<name>`, a user group
`tutors_<name>`, the tutor stream (and optionally an instructor stream)
and the course row are created and committed; a constraint violation rolls
the transaction back and raises a generic DMError.  Chat-stream creation
and the stream-group membership table are client-side effects outside this
state.  `Streamgroup._create_and_get_group` and
`Usergroup.create_and_get_group` are modelled from the spec (their modules
are not under src/) as adding one row with the given natural key, which
must be fresh.  Note: the source stores the tutors stream as the
instructor stream too (line 183 builds it from `tutors_stream_name`). -/
def create_empty (db : CourseTables) (name emoji : String) (optInstructors : Bool) :
    (Except String Unit) × CourseTables :=
  if db.courses.any (fun c => c.courseName = name) then
    (.error ("Course already exists"), db)
  else if db.streamgroups.any (fun g => g.streamGroupEmote = emoji) then
    (.error ("Course with this emoji already exists"), db)
  else
    let sgId := "streams_" ++ name
    let ugName := "tutors_" ++ name
    if db.streamgroups.any (fun g => g.streamGroupId = sgId) ||
       db.usergroups.any (fun u => u.groupName = ugName) then
      (.error ("Something went wrong when creating the course"), db)
    else
      let ug : UserGroupRow := { groupId := nextUserGroupId db, groupName := ugName }
      let course : CourseRow :=
        { courseId := nextCourseId db, courseName := name, streams := sgId,
          tutors := ug.groupId, tutorStream := name ++ "-Tutoren",
          instructorStream := if optInstructors then some (name ++ "-Tutoren") else none }
      (.ok (), { courses := db.courses ++ [course],
                 streamgroups := db.streamgroups ++
                   [{ streamGroupId := sgId, streamGroupEmote := emoji }],
                 usergroups := db.usergroups ++ [ug] })

/-- The optional arguments of `Course.create`. -/
structure CreateOpts where
  sGroup : Option StreamGroupRow := none
  tGroup : Option UserGroupRow := none
  tutsStream : Option String := none
  insStream : Option String := none
deriving DecidableEq, Repr

/-- `Course.create` (course.py lines 237-341) on the database state: same
uniqueness pre-checks as `create_empty`; existing groups/streams passed as
options are reused, otherwise fresh ones are created exactly as in
`create_empty` (the non-option instructor branch also stores the tutors
stream, source line 317). -/
def Course_create (db : CourseTables) (name emoji : String) (opts : CreateOpts) :
    (Except String Unit) × CourseTables :=
  if db.courses.any (fun c => c.courseName = name) then
    (.error ("Course already exists"), db)
  else if db.streamgroups.any (fun g => g.streamGroupEmote = emoji) then
    (.error ("Course with this emoji already exists"), db)
  else
    let sgId := match opts.sGroup with
      | some g => g.streamGroupId
      | none => "streams_" ++ name
    let newSGs : List StreamGroupRow := match opts.sGroup with
      | some _ => []
      | none => [{ streamGroupId := "streams_" ++ name, streamGroupEmote := emoji }]
    let tutId : Nat := match opts.tGroup with
      | some u => u.groupId
      | none => nextUserGroupId db
    let newUGs : List UserGroupRow := match opts.tGroup with
      | some _ => []
      | none => [{ groupId := nextUserGroupId db, groupName := "tutors_" ++ name }]
    let tutStream := match opts.tutsStream with
      | some s => s
      | none => name ++ "-Tutoren"
    let insStream := match opts.insStream with
      | some s => s
      | none => name ++ "-Tutoren"
    if newSGs.any (fun g => db.streamgroups.any (fun g2 => g2.streamGroupId = g.streamGroupId)) ||
       newUGs.any (fun u => db.usergroups.any (fun u2 => u2.groupName = u.groupName)) then
      (.error ("Something went wrong when creating the course"), db)
    else
      let course : CourseRow :=
        { courseId := nextCourseId db, courseName := name, streams := sgId,
          tutors := tutId, tutorStream := tutStream,
          instructorStream := some insStream }
      (.ok (), { courses := db.courses ++ [course],
                 streamgroups := db.streamgroups ++ newSGs,
                 usergroups := db.usergroups ++ newUGs })

/-- `Course._get_streamgroup` (course.py lines 617-623).  Modelled from the
spec where the source leans on the missing StreamGroup class: the query
filter (written `StreamGroup.CouseId == course.Streams` in the source) is
read, as the spec does, as retrieving the stream-group row referenced by
the course's Streams column; `.one()` raises unless exactly one row
matches. -/
def get_streamgroup (db : CourseTables) (course : CourseRow) :
    Except String StreamGroupRow :=
  match db.streamgroups.filter (fun g => g.streamGroupId = course.streams) with
  | [g] => .ok g
  | _ => .error ("one() found no or multiple rows")

/-- `Course._update_streamgroup` (course.py lines 645-661): a no-op
replacement raises a DMError and changes nothing; otherwise the course row
is pointed at the new group, the old stream-group row is deleted, and the
transaction is committed (an IntegrityError would roll it back). -/
def update_streamgroup (db : CourseTables) (course : CourseRow)
    (group : StreamGroupRow) : (Except String Unit) × CourseTables :=
  match get_streamgroup db course with
  | .error e => (.error e, db)
  | .ok oldSG =>
    if oldSG = group then
      (.error ("The given Streamgroup is already set for this course."), db)
    else
      (.ok (), { db with
        courses := db.courses.map (fun c =>
          if c.courseId = course.courseId then { c with streams := group.streamGroupId } else c),
        streamgroups := db.streamgroups.filter (fun g =>
          ¬(g.streamGroupId = oldSG.streamGroupId)) })

/-- A sample database with one course and its stream and user groups. -/
def exCourse : CourseRow :=
  { courseId := 1, courseName := "algo", streams := "sg1", tutors := 1,
    tutorStream := "algo-Tutoren", instructorStream := none }

def exSG1 : StreamGroupRow := { streamGroupId := "sg1", streamGroupEmote := "star" }

def exSG2 : StreamGroupRow := { streamGroupId := "sg2", streamGroupEmote := "moon" }

def exCourseDb : CourseTables :=
  { courses := [exCourse], streamgroups := [exSG1, exSG2],
    usergroups := [{ groupId := 1, groupName := "tutors_algo" }] }

theorem pyCmdName_eq (s : String) :
    pyCmdName s = String.mk ((s.data.dropWhile isPySpace).takeWhile (fun c => !isPySpace c)) := by
  unfold pyCmdName pySplitMax1
  by_cases h : (s.data.dropWhile isPySpace).isEmpty
  · simp only [h, if_pos]
    simp only [List.isEmpty_iff] at h
    simp [h]
  · simp only [h]
    simp only [Bool.false_eq_true, if_false]
    split <;> simp [List.headD]

theorem pyCmdArgs_eq (s : String) :
    pyCmdArgs s =
      String.mk (((s.data.dropWhile isPySpace).dropWhile (fun c => !isPySpace c)).dropWhile isPySpace) := by
  unfold pyCmdArgs pySplitMax1
  by_cases h : (s.data.dropWhile isPySpace).isEmpty
  · simp only [h, if_pos]
    simp only [List.isEmpty_iff] at h
    simp [h]
  · simp only [h]
    simp only [Bool.false_eq_true, if_false]
    by_cases h2 :
        (((s.data.dropWhile isPySpace).dropWhile (fun c => !isPySpace c)).dropWhile isPySpace).isEmpty
    · simp only [h2, if_pos]
      simp only [List.isEmpty_iff] at h2
      simp [h2]
    · simp [h2]

theorem preprocess_qualified (client : Client) (e : EventDict) (m : MessageDict)
    (sid : Int) (mt c : String)
    (ht : e.type = some ("message")) (hm : e.message = some m)
    (hsid : m.sender_id = some sid) (hne : sid ≠ client.id)
    (hmt : m.type = some mt) (hc : m.content = some c)
    (hqual :
      (mt ≠ "private" ∧ pyStartsWith c client.ping = true) ∨
      (mt = "private" ∧ pyStartsWith c client.ping = false ∧
        is_only_pm_recipient client m = .ok true)) :
    zulip_event_preprocess client e =
      .ok (augmentCommand e m
        (pyCmdName (if pyStartsWith c client.ping = true then pyDropChars client.ping_len c else c))
        (pyCmdArgs (if pyStartsWith c client.ping = true then pyDropChars client.ping_len c else c))) := by
  rcases hqual with ⟨hpriv, hping⟩ | ⟨hpriv, hping, honly⟩
  · simp only [zulip_event_preprocess, ht, hm, hsid, hmt, hc, hping, augmentCommand]
    simp [hne, hpriv]
  · subst hpriv
    simp only [zulip_event_preprocess, ht, hm, hsid, hmt, hc, hping, honly, augmentCommand]
    simp [hne]

/-- Claim C1: for every well-formed event of type "message" whose message
type is not "private", whose sender is not the bot, and whose content
starts with the bot's mention string, preprocessing attaches command_name =
the first whitespace-delimited token of the content after the mention
prefix is stripped, and command = the remainder after that token. -/
theorem c1_mention_command_extraction (client : Client) (e : EventDict) (m : MessageDict)
    (sid : Int) (mt c : String)
    (ht : e.type = some ("message")) (hm : e.message = some m)
    (hsid : m.sender_id = some sid) (hne : sid ≠ client.id)
    (hmt : m.type = some mt) (hpriv : mt ≠ "private")
    (hc : m.content = some c) (hping : pyStartsWith c client.ping = true) :
    zulip_event_preprocess client e =
      .ok (augmentCommand e m
        (String.mk (((pyDropChars client.ping_len c).data.dropWhile isPySpace).takeWhile
          (fun ch => !isPySpace ch)))
        (String.mk ((((pyDropChars client.ping_len c).data.dropWhile isPySpace).dropWhile
          (fun ch => !isPySpace ch)).dropWhile isPySpace))) := by
  have h := preprocess_qualified client e m sid mt c ht hm hsid hne hmt hc (Or.inl ⟨hpriv, hping⟩)
  rw [h]
  simp [hping, pyCmdName_eq, pyCmdArgs_eq]

theorem c1_mention_command_extraction_witness :
    zulip_event_preprocess { id := 1, ping := "@**bot**" }
        { type := some ("message"),
          message := some { sender_id := some 5, type := some ("stream"),
                            content := some ("@**bot** create foo") } } =
      .ok (augmentCommand
        { type := some ("message"),
          message := some { sender_id := some 5, type := some ("stream"),
                            content := some ("@**bot** create foo") } }
        { sender_id := some 5, type := some ("stream"),
          content := some ("@**bot** create foo") }
        ("create") ("foo")) := by
  have h := c1_mention_command_extraction { id := 1, ping := "@**bot**" }
    { type := some ("message"),
      message := some { sender_id := some 5, type := some ("stream"),
                        content := some ("@**bot** create foo") } }
    { sender_id := some 5, type := some ("stream"),
      content := some ("@**bot** create foo") }
    5 ("stream") ("@**bot** create foo")
    rfl rfl rfl (by decide) rfl (by decide) rfl (by decide)
  rw [h]
  simp only [Except.ok.injEq]
  decide

/-- Claim C2: for every well-formed private message event whose sender is
not the bot, where the bot is the only recipient besides the sender and the
content does not start with the mention string, preprocessing attaches
command_name = the first whitespace-delimited token of the full content and
command = the remainder, stripping no prefix. -/
theorem c2_private_full_content_command (client : Client) (e : EventDict) (m : MessageDict)
    (sid : Int) (c : String) (recips : List Int)
    (ht : e.type = some ("message")) (hm : e.message = some m)
    (hsid : m.sender_id = some sid) (hne : sid ≠ client.id)
    (hmt : m.type = some ("private")) (hc : m.content = some c)
    (hping : pyStartsWith c client.ping = false)
    (hrec : m.display_recipient = some recips)
    (honly : ∀ r ∈ recips, r = client.id ∨ r = sid) :
    zulip_event_preprocess client e =
      .ok (augmentCommand e m
        (String.mk ((c.data.dropWhile isPySpace).takeWhile (fun ch => !isPySpace ch)))
        (String.mk (((c.data.dropWhile isPySpace).dropWhile
          (fun ch => !isPySpace ch)).dropWhile isPySpace))) := by
  have hon : is_only_pm_recipient client m = .ok true := by
    simp only [is_only_pm_recipient, hrec, hsid, Except.ok.injEq]
    simp only [List.all_eq_true]
    intro r hr
    rcases honly r hr with h | h <;> simp [h]
  have h := preprocess_qualified client e m sid ("private") c ht hm hsid hne hmt hc
    (Or.inr ⟨rfl, hping, hon⟩)
  rw [h]
  simp [hping, pyCmdName_eq, pyCmdArgs_eq]

theorem c2_private_full_content_command_witness :
    zulip_event_preprocess { id := 1, ping := "@**bot**" }
        { type := some ("message"),
          message := some { sender_id := some 5, type := some ("private"),
                            content := some ("ping hello world"),
                            display_recipient := some [1, 5] } } =
      .ok (augmentCommand
        { type := some ("message"),
          message := some { sender_id := some 5, type := some ("private"),
                            content := some ("ping hello world"),
                            display_recipient := some [1, 5] } }
        { sender_id := some 5, type := some ("private"),
          content := some ("ping hello world"),
          display_recipient := some [1, 5] }
        ("ping") ("hello world")) := by
  have h := c2_private_full_content_command { id := 1, ping := "@**bot**" }
    { type := some ("message"),
      message := some { sender_id := some 5, type := some ("private"),
                        content := some ("ping hello world"),
                        display_recipient := some [1, 5] } }
    { sender_id := some 5, type := some ("private"),
      content := some ("ping hello world"),
      display_recipient := some [1, 5] }
    5 ("ping hello world") [1, 5]
    rfl rfl rfl (by decide) rfl rfl (by decide) rfl (by decide)
  rw [h]
  simp only [Except.ok.injEq]
  decide

/-- Claim C3: a well-formed message event sent by the bot itself is
returned unmodified, and re-running preprocessing on any event the function
already returned unmodified yields the same event again. -/
theorem c3_self_sender_unmodified_idem (client : Client) :
    (∀ (e : EventDict) (m : MessageDict) (sid : Int) (c : String),
      e.type = some ("message") → e.message = some m → m.sender_id = some sid →
      sid = client.id → m.content = some c →
      zulip_event_preprocess client e = .ok e) ∧
    (∀ (e e2 : EventDict),
      zulip_event_preprocess client e = .ok e2 → e2 = e →
      zulip_event_preprocess client e2 = .ok e2) := by
  constructor
  · intro e m sid c ht hm hsid hself hc
    subst hself
    simp only [zulip_event_preprocess, ht, hm, hsid, hc]
    simp
  · intro e e2 h heq
    subst heq
    exact h

theorem c3_self_sender_unmodified_idem_witness :
    zulip_event_preprocess { id := 1, ping := "@**bot**" }
        { type := some ("message"),
          message := some { sender_id := some 1, type := some ("stream"),
                            content := some ("hello") } } =
      .ok { type := some ("message"),
            message := some { sender_id := some 1, type := some ("stream"),
                              content := some ("hello") } } :=
  (c3_self_sender_unmodified_idem { id := 1, ping := "@**bot**" }).1
    { type := some ("message"),
      message := some { sender_id := some 1, type := some ("stream"),
                        content := some ("hello") } }
    { sender_id := some 1, type := some ("stream"), content := some ("hello") }
    1 ("hello") rfl rfl rfl rfl rfl

/-- Claim C4: a well-formed private message event not sent by the bot is
excluded from command treatment and returned unchanged when its content
starts with the mention string, or when some recipient is neither the bot
nor the sender. -/
theorem c4_private_mention_or_extra_recipients_excluded
    (client : Client) (e : EventDict) (m : MessageDict) (sid : Int) (c : String)
    (ht : e.type = some ("message")) (hm : e.message = some m)
    (hsid : m.sender_id = some sid) (hne : sid ≠ client.id)
    (hmt : m.type = some ("private")) (hc : m.content = some c)
    (hcase : pyStartsWith c client.ping = true ∨
      ∃ recips, m.display_recipient = some recips ∧
        ∃ r ∈ recips, r ≠ client.id ∧ r ≠ sid) :
    zulip_event_preprocess client e = .ok e := by
  by_cases hping : pyStartsWith c client.ping = true
  · simp only [zulip_event_preprocess, ht, hm, hsid, hmt, hc, hping]
    simp [hne]
  · have hping2 : pyStartsWith c client.ping = false := by
      simpa using hping
    rcases hcase with h | ⟨recips, hrec, r, hr, hrb, hrs⟩
    · exact absurd h hping
    · have hon : is_only_pm_recipient client m = .ok false := by
        simp only [is_only_pm_recipient, hrec, hsid, Except.ok.injEq]
        simp only [List.all_eq_false]
        exact ⟨r, hr, by simp [hrb, hrs]⟩
      simp only [zulip_event_preprocess, ht, hm, hsid, hmt, hc, hping2, hon]
      simp [hne]

theorem c4_private_mention_or_extra_recipients_excluded_witness :
    zulip_event_preprocess { id := 1, ping := "@**bot**" }
        { type := some ("message"),
          message := some { sender_id := some 5, type := some ("private"),
                            content := some ("@**bot** hi"),
                            display_recipient := some [1, 5] } } =
      .ok { type := some ("message"),
            message := some { sender_id := some 5, type := some ("private"),
                              content := some ("@**bot** hi"),
                              display_recipient := some [1, 5] } } :=
  c4_private_mention_or_extra_recipients_excluded { id := 1, ping := "@**bot**" }
    { type := some ("message"),
      message := some { sender_id := some 5, type := some ("private"),
                        content := some ("@**bot** hi"),
                        display_recipient := some [1, 5] } }
    { sender_id := some 5, type := some ("private"),
      content := some ("@**bot** hi"), display_recipient := some [1, 5] }
    5 ("@**bot** hi") rfl rfl rfl (by decide) rfl rfl (Or.inl (by decide))

theorem stringMk_nil_eq_empty : String.mk [] = "" := rfl

/-- Claim C10: for every event qualifying as a command whose effective
content s (after stripping the mention prefix when present) is empty or
whitespace-only, preprocessing succeeds and attaches command_name = "" and
command = ""; if s is a single token, command_name is that token and
command = "". -/
theorem c10_empty_or_single_token_command
    (client : Client) (e : EventDict) (m : MessageDict)
    (sid : Int) (mt c s : String)
    (ht : e.type = some ("message")) (hm : e.message = some m)
    (hsid : m.sender_id = some sid) (hne : sid ≠ client.id)
    (hmt : m.type = some mt) (hc : m.content = some c)
    (hqual :
      (mt ≠ "private" ∧ pyStartsWith c client.ping = true) ∨
      (mt = "private" ∧ pyStartsWith c client.ping = false ∧
        is_only_pm_recipient client m = .ok true))
    (hs : s = if pyStartsWith c client.ping = true
              then pyDropChars client.ping_len c else c) :
    (s.data.all isPySpace = true →
      zulip_event_preprocess client e = .ok (augmentCommand e m ("") (""))) ∧
    (((s.data.dropWhile isPySpace).dropWhile
        (fun ch => !isPySpace ch)).dropWhile isPySpace = [] →
      zulip_event_preprocess client e =
        .ok (augmentCommand e m
          (String.mk ((s.data.dropWhile isPySpace).takeWhile (fun ch => !isPySpace ch)))
          (""))) := by
  have h := preprocess_qualified client e m sid mt c ht hm hsid hne hmt hc hqual
  rw [← hs] at h
  constructor
  · intro hall
    have hdrop : s.data.dropWhile isPySpace = [] := by
      rw [List.dropWhile_eq_nil_iff]
      intro x hx
      exact List.all_eq_true.mp hall x hx
    rw [h, pyCmdName_eq, pyCmdArgs_eq, hdrop]
    simp [augmentCommand, stringMk_nil_eq_empty]
  · intro hrest
    rw [h, pyCmdName_eq, pyCmdArgs_eq, hrest]

theorem c10_empty_or_single_token_command_witness :
    (zulip_event_preprocess { id := 1, ping := "@**bot**" }
        { type := some ("message"),
          message := some { sender_id := some 5, type := some ("stream"),
                            content := some ("@**bot**   ") } } =
      .ok (augmentCommand
        { type := some ("message"),
          message := some { sender_id := some 5, type := some ("stream"),
                            content := some ("@**bot**   ") } }
        { sender_id := some 5, type := some ("stream"),
          content := some ("@**bot**   ") }
        ("") (""))) := by
  have h := c10_empty_or_single_token_command { id := 1, ping := "@**bot**" }
    { type := some ("message"),
      message := some { sender_id := some 5, type := some ("stream"),
                        content := some ("@**bot**   ") } }
    { sender_id := some 5, type := some ("stream"),
      content := some ("@**bot**   ") }
    5 ("stream") ("@**bot**   ") ("   ")
    rfl rfl rfl (by decide) rfl rfl (Or.inl ⟨by decide, by decide⟩) (by decide)
  exact h.1 (by decide)

/-- Claim C5: a Zulip event whose data type field is "heartbeat" is skipped
before preprocessing and before the plugin fan-out: when the loop is not
stopping, the iteration is a plain skip, and in no state does the iteration
dispatch handlers for it. -/
theorem c5_heartbeat_never_dispatched (client : Client) (stopped : Bool)
    (plugins : List LivePlugin) (ev : BotEvent)
    (hz : ev.etype = PyEventType.zulip)
    (hb : ev.data.type = some ("heartbeat")) :
    (stopped = false → loopStep client stopped plugins ev = StepResult.skip) ∧
    (∀ d hs, loopStep client stopped plugins ev ≠ StepResult.dispatch d hs) := by
  constructor
  · intro hstop
    simp only [loopStep, hstop, hz, hb]
    simp
  · intro d hs
    by_cases hstop : stopped = true
    · simp only [loopStep, hstop, hz, hb]
      simp
    · simp only [loopStep, eq_false_of_ne_true hstop, hz, hb]
      simp

theorem c5_heartbeat_never_dispatched_witness :
    loopStep { id := 1, ping := "@**bot**" } false []
        { sender := "_root", etype := PyEventType.zulip,
          data := { type := some ("heartbeat") } } = StepResult.skip :=
  (c5_heartbeat_never_dispatched { id := 1, ping := "@**bot**" } false []
    { sender := "_root", etype := PyEventType.zulip,
      data := { type := some ("heartbeat") } } rfl rfl).1 rfl

theorem preprocess_nonmessage (client : Client) (e : EventDict) (t : String)
    (ht : e.type = some t) (hne : t ≠ "message") :
    zulip_event_preprocess client e = .ok e := by
  simp only [zulip_event_preprocess, ht]
  simp [hne]

theorem preprocess_self (client : Client) (e : EventDict) (m : MessageDict) (c : String)
    (ht : e.type = some ("message")) (hm : e.message = some m)
    (hc : m.content = some c) (hsid : m.sender_id = some client.id) :
    zulip_event_preprocess client e = .ok e := by
  simp only [zulip_event_preprocess, ht, hm, hc, hsid]
  simp

theorem preprocess_stream_noping (client : Client) (e : EventDict) (m : MessageDict)
    (sid : Int) (mt c : String)
    (ht : e.type = some ("message")) (hm : e.message = some m)
    (hsid : m.sender_id = some sid) (hne : sid ≠ client.id)
    (hmt : m.type = some mt) (hpriv : mt ≠ "private")
    (hc : m.content = some c) (hping : pyStartsWith c client.ping = false) :
    zulip_event_preprocess client e = .ok e := by
  simp only [zulip_event_preprocess, ht, hm, hsid, hmt, hc, hping]
  simp [hne, hpriv]

theorem preprocess_private_excluded_core (client : Client) (e : EventDict)
    (m : MessageDict) (sid : Int) (c : String)
    (ht : e.type = some ("message")) (hm : e.message = some m)
    (hsid : m.sender_id = some sid) (hne : sid ≠ client.id)
    (hmt : m.type = some ("private")) (hc : m.content = some c)
    (hcase : pyStartsWith c client.ping = true ∨
      (pyStartsWith c client.ping = false ∧
        is_only_pm_recipient client m = .ok false)) :
    zulip_event_preprocess client e = .ok e := by
  rcases hcase with hping | ⟨hping, hon⟩
  · simp only [zulip_event_preprocess, ht, hm, hsid, hmt, hc, hping]
    simp [hne]
  · simp only [zulip_event_preprocess, ht, hm, hsid, hmt, hc, hping, hon]
    simp [hne]

/-- Claim C9: zulip_event_preprocess, as a pure total function of the event,
never fails on a well-formed event; and when it does fail on a malformed
Zulip event, the dispatcher iteration catches the exception and drops the
event with a plain skip, never stopping the loop. -/
theorem c9_preprocess_total_and_errors_dropped (client : Client) :
    (∀ e : EventDict, wellFormedEvent e = true →
      ∃ e2, zulip_event_preprocess client e = .ok e2) ∧
    (∀ (plugins : List LivePlugin) (ev : BotEvent) (t err : String),
      ev.etype = PyEventType.zulip → ev.data.type = some t → t ≠ "heartbeat" →
      zulip_event_preprocess client ev.data = .error err →
      loopStep client false plugins ev = StepResult.skip) := by
  constructor
  · intro e he
    cases het : e.type with
    | none => rw [wellFormedEvent, het] at he; exact absurd he (by simp)
    | some t =>
      by_cases ht : t = "message"
      · subst ht
        simp only [wellFormedEvent, het, if_pos] at he
        cases hem : e.message with
        | none => rw [hem] at he; exact absurd he (by simp)
        | some m =>
          rw [hem] at he
          simp only [Bool.and_eq_true, Option.isSome_iff_exists] at he
          obtain ⟨⟨⟨⟨sid, hsid⟩, mt, hmt⟩, c, hc⟩, recips, hrec⟩ := he
          by_cases hbot : sid = client.id
          · exact ⟨e, preprocess_self client e m c het hem hc (hbot ▸ hsid)⟩
          · by_cases hpriv : mt = "private"
            · subst hpriv
              by_cases hping : pyStartsWith c client.ping = true
              · exact ⟨e, preprocess_private_excluded_core client e m sid c
                  het hem hsid hbot hmt hc (Or.inl hping)⟩
              · have hping2 : pyStartsWith c client.ping = false :=
                  eq_false_of_ne_true hping
                have hio : is_only_pm_recipient client m =
                    .ok (recips.all (fun r => r = client.id || r = sid)) := by
                  simp only [is_only_pm_recipient, hrec, hsid]
                cases hb : recips.all (fun r => r = client.id || r = sid) with
                | true =>
                  rw [hb] at hio
                  exact ⟨_, preprocess_qualified client e m sid ("private") c
                    het hem hsid hbot hmt hc (Or.inr ⟨rfl, hping2, hio⟩)⟩
                | false =>
                  rw [hb] at hio
                  exact ⟨e, preprocess_private_excluded_core client e m sid c
                    het hem hsid hbot hmt hc (Or.inr ⟨hping2, hio⟩)⟩
            · by_cases hping : pyStartsWith c client.ping = true
              · exact ⟨_, preprocess_qualified client e m sid mt c
                  het hem hsid hbot hmt hc (Or.inl ⟨hpriv, hping⟩)⟩
              · exact ⟨e, preprocess_stream_noping client e m sid mt c
                  het hem hsid hbot hmt hpriv hc (eq_false_of_ne_true hping)⟩
      · exact ⟨e, preprocess_nonmessage client e t het ht⟩
  · intro plugins ev t err hz ht hnb herr
    simp only [loopStep, hz, ht, herr]
    simp [hnb]

theorem c9_preprocess_total_and_errors_dropped_witness :
    (∃ e2, zulip_event_preprocess { id := 1, ping := "@**bot**" }
      { type := some ("message"),
        message := some { sender_id := some 5, type := some ("stream"),
                          content := some ("hi"),
                          display_recipient := some [] } } = .ok e2) ∧
    loopStep { id := 1, ping := "@**bot**" } false []
        { sender := "_root", etype := PyEventType.zulip,
          data := { type := some ("message") } } = StepResult.skip :=
  ⟨(c9_preprocess_total_and_errors_dropped { id := 1, ping := "@**bot**" }).1
      { type := some ("message"),
        message := some { sender_id := some 5, type := some ("stream"),
                          content := some ("hi"),
                          display_recipient := some [] } } (by decide),
   (c9_preprocess_total_and_errors_dropped { id := 1, ping := "@**bot**" }).2
      [] { sender := "_root", etype := PyEventType.zulip,
           data := { type := some ("message") } }
      ("message") ("KeyError") rfl rfl (by decide) rfl⟩

/-- Claim C6, refuted at a concrete input: two plugin descriptors sharing
the name "a" do not make startup fail — the dict comprehensions silently
collapse them and exactly one plugin is instantiated with no error (the
in-code duplicate check is unreachable).  The cycle half of the claim does
hold: a three-cycle makes startup fail before any plugin is instantiated. -/
theorem c6_duplicate_name_not_fatal_but_cycle_fatal :
    startPlugins [{ name := "a", dependencies := [] },
                  { name := "a", dependencies := [] }] = (.ok (), ["a"]) ∧
    startPlugins [{ name := "a", dependencies := ["b"] },
                  { name := "b", dependencies := ["c"] },
                  { name := "c", dependencies := ["a"] }] = (.error ("CycleError"), []) :=
  ⟨rfl, rfl⟩

/-- Claim C7: creating a course (create_empty or create) whose name already
exists, or whose stream-group emoji is already used, fails with a DMError
and leaves the database exactly as it was. -/
theorem c7_create_duplicate_rejected (db : CourseTables) (name emoji : String)
    (optI : Bool) (opts : CreateOpts)
    (h : db.courses.any (fun c => c.courseName = name) = true ∨
         db.streamgroups.any (fun g => g.streamGroupEmote = emoji) = true) :
    ((∃ msg, (create_empty db name emoji optI).1 = .error msg) ∧
      (create_empty db name emoji optI).2 = db) ∧
    ((∃ msg, (Course_create db name emoji opts).1 = .error msg) ∧
      (Course_create db name emoji opts).2 = db) := by
  unfold create_empty Course_create
  rcases h with h | h
  · simp [h]
  · by_cases hn : db.courses.any (fun c => c.courseName = name) = true
    · simp [hn]
    · simp [eq_false_of_ne_true hn, h]

theorem c7_create_duplicate_rejected_witness :
    ((∃ msg, (create_empty exCourseDb ("algo") ("heart") false).1 = .error msg) ∧
      (create_empty exCourseDb ("algo") ("heart") false).2 = exCourseDb) ∧
    ((∃ msg, (Course_create exCourseDb ("algo") ("heart") {}).1 = .error msg) ∧
      (Course_create exCourseDb ("algo") ("heart") {}).2 = exCourseDb) :=
  c7_create_duplicate_rejected exCourseDb ("algo") ("heart") false {}
    (Or.inl (by decide))

/-- Claim C8: updating a course's stream-group to the group it currently
references fails with a no-op DMError and changes nothing; updating it to a
distinct group succeeds, points the course's Streams reference at the new
group, and deletes the previously referenced stream-group row. -/
theorem c8_update_streamgroup_noop_and_replace (db : CourseTables)
    (course : CourseRow) (group oldSG : StreamGroupRow)
    (hold : get_streamgroup db course = .ok oldSG)
    (hmem : course ∈ db.courses) :
    (group = oldSG →
      (∃ msg, (update_streamgroup db course group).1 = .error msg) ∧
      (update_streamgroup db course group).2 = db) ∧
    (group ≠ oldSG →
      (update_streamgroup db course group).1 = .ok () ∧
      (∃ c2 ∈ (update_streamgroup db course group).2.courses,
        c2.courseId = course.courseId ∧ c2.streams = group.streamGroupId) ∧
      (∀ g2 ∈ (update_streamgroup db course group).2.streamgroups,
        g2.streamGroupId ≠ oldSG.streamGroupId)) := by
  constructor
  · intro heq
    subst heq
    unfold update_streamgroup
    rw [hold]
    simp
  · intro hne
    have hno : ¬(oldSG = group) := fun hh => hne hh.symm
    unfold update_streamgroup
    rw [hold]
    simp only [hno, if_false]
    refine ⟨by simp, ?_, ?_⟩
    · refine ⟨{ course with streams := group.streamGroupId }, ?_, rfl, rfl⟩
      simp only [List.mem_map]
      exact ⟨course, hmem, by simp⟩
    · intro g2 hg2
      simp only [List.mem_filter] at hg2
      simpa using hg2.2

theorem c8_update_streamgroup_noop_and_replace_witness :
    (update_streamgroup exCourseDb exCourse exSG2).1 = .ok () ∧
    (∃ c2 ∈ (update_streamgroup exCourseDb exCourse exSG2).2.courses,
      c2.courseId = exCourse.courseId ∧ c2.streams = exSG2.streamGroupId) ∧
    (∀ g2 ∈ (update_streamgroup exCourseDb exCourse exSG2).2.streamgroups,
      g2.streamGroupId ≠ exSG1.streamGroupId) :=
  (c8_update_streamgroup_noop_and_replace exCourseDb exCourse exSG2 exSG1
    rfl (by decide)).2 (by decide)
